import Mathlib

/-!
Verification of the `ZapNone` scanner lifecycle controller
(`src/scanners/zap/zap_none.py`) against its specification.

The Python class is shallowly embedded below.  Pure control flow is
translated directly; external effects (subprocess execution, downloads,
file removal, logging) are recorded as an explicit `Event` trace;
exceptions raised by a method are modelled with `Except`; the outcomes of
external processes and of filesystem probes are inputs (environment
records).  Code of the parent class `Zap` (not part of the sources under
verification) is abstracted: its state effect is a universally quantified
`State → State` function and its invocation is recorded as a dedicated
trace event.
-/

namespace Rapidast

/-- Scanner lifecycle states, from `scanners.State` (`from scanners import State`). -/
inductive State where
  | UNCONFIGURED
  | READY
  | DONE
  | ERROR
  | PROCESSED
  | CLEANEDUP
deriving DecidableEq, Repr

/-- Rendering of a state used inside the `setup` error message,
mirroring Python `str(self.state)`. -/
def stateName : State → String
  | State.UNCONFIGURED => "State.UNCONFIGURED"
  | State.READY => "State.READY"
  | State.DONE => "State.DONE"
  | State.ERROR => "State.ERROR"
  | State.PROCESSED => "State.PROCESSED"
  | State.CLEANEDUP => "State.CLEANEDUP"

/-- Observable effects of the controller.  `runCmd` is a direct
`subprocess.run(command)`; `runShell` is `subprocess.run(["sh", "-c", str])`
where the shell string rendering of the argument list
(`_zap_cli_list_to_str_for_sh`, parent-class code) is abstracted to the
token list itself.  `readShm` and `readPids` are the host introspection
probes (`disk_usage("/dev/shm/")` and opening `/sys/fs/cgroup/pids.max`).
The `super...` events record delegation to the parent class. -/
inductive Event where
  | logDebug (msg : String)
  | logInfo (msg : String)
  | logWarning (msg : String)
  | runCmd (cmd : List String)
  | runShell (cmd : List String)
  | download (url : String) (dest : String)
  | removeFile (path : String)
  | mkdirEvt (path : String)
  | includeFile (hostPath : String) (destPath : String)
  | setHomeEnv
  | superSetup
  | superPostprocess
  | superCleanup
  | superAjaxSetup
  | readShm
  | readPids
deriving DecidableEq, Repr

/-- True exactly on events that execute a subprocess or download a file. -/
def isProcessEvent : Event → Bool
  | Event.runCmd _ => true
  | Event.runShell _ => true
  | Event.download _ _ => true
  | _ => false

/-- True exactly on download events. -/
def isDownload : Event → Bool
  | Event.download _ _ => true
  | _ => false

/-- True exactly on warning-severity log events. -/
def isWarning : Event → Bool
  | Event.logWarning _ => true
  | _ => false

/-- True exactly on file-removal events. -/
def isRemoveFile : Event → Bool
  | Event.removeFile _ => true
  | _ => false

/-- Helper for `bytesFind`: first index at or after `i` where `needle`
occurs in the remaining haystack, `-1` when absent. -/
def bytesFindGo (needle : List Char) : List Char → Nat → Int
  | [], i => if needle.isPrefixOf ([] : List Char) then (i : Int) else -1
  | c :: rest, i =>
      if needle.isPrefixOf (c :: rest) then (i : Int) else bytesFindGo needle rest (i + 1)

/-- Python `haystack.find(needle)`: the lowest index at which `needle`
occurs as a substring of `haystack`, or `-1` when it does not occur. -/
def bytesFind (haystack needle : String) : Int :=
  bytesFindGo needle.data haystack.data 0

/-- The failure-signature substring searched for in stderr
(`zap_none.py` line 289). -/
def mandatoryAddonMarker : String := "The mandatory add-on was not found:"

/-- Base URL of the remediation downloads (`zap_none.py` line 291). -/
def urlRoot : String := "https://github.com/zaproxy/zap-extensions/releases/download"

/-- Environment of `_check_plugin_status`: configuration values, paths,
and the outcome of the two external processes it may start.  The outcome
of the recovery re-run (`recoveryReturncode`) is part of the environment
even though the Python code never reads it: `result` is assigned on
line 311 and then dropped. -/
structure CheckEnv where
  executable : String
  standardOptions : List String
  containerHomeDir : String
  hostHomeDir : String
  verifReturncode : Int
  verifStderr : String
  recoveryReturncode : Int
deriving DecidableEq, Repr

/-- Verification-run command (`zap_none.py` lines 280-283):
executable, standard options, `-dir <home>`, `-cmd`. -/
def verifCommand (c : CheckEnv) : List String :=
  c.executable :: c.standardOptions ++ ["-dir", c.containerHomeDir, "-cmd"]

/-- Recovery command (`zap_none.py` lines 304-308): the verification
command rebuilt from scratch with `-addoninstallall` appended. -/
def installAllCommand (c : CheckEnv) : List String :=
  c.executable :: c.standardOptions ++ ["-dir", c.containerHomeDir, "-cmd", "-addoninstallall"]

/-- Shallow embedding of `ZapNone._check_plugin_status`
(`zap_none.py` lines 274-314).  Note the guard on line 289 is
`stderr.find(marker) > 0`, i.e. strictly positive. -/
def check_plugin_status (c : CheckEnv) : List Event :=
  [Event.logInfo "Zap: verifying the viability of ZAP",
   Event.runCmd (verifCommand c)] ++
  (if c.verifReturncode = 0 then
    [Event.logDebug "ZAP appears to be in a correct state"]
  else if bytesFind c.verifStderr mandatoryAddonMarker > 0 then
    [Event.logInfo "Missing mandatory plugins. Fixing",
     Event.download (urlRoot ++ "/callhome-v0.6.0/callhome-release-0.6.0.zap")
       (c.hostHomeDir ++ "/plugin/callhome-release-0.6.0.zap"),
     Event.download (urlRoot ++ "/network-v0.9.0/network-beta-0.9.0.zap")
       (c.hostHomeDir ++ "/plugin/network-beta-0.9.0.zap"),
     Event.logInfo "Workaround: installing all addons",
     Event.runCmd (installAllCommand c)]
  else
    [Event.logWarning ("ZAP appears to be in a incorrect state. Error: " ++ c.verifStderr)])

/-- Python `os.remove(path)`: succeeds leaving a `removeFile` event when
the file is present, raises `FileNotFoundError` when it is absent. -/
def osRemove (path : String) (present : Bool) : Except String (List Event) :=
  if present then Except.ok [Event.removeFile path] else Except.error "FileNotFoundError"

/-- The stale addon-state file deletion step of `run`
(`zap_none.py` lines 111-115 and 121-125): `os.remove` wrapped in
`try ... except FileNotFoundError`, the absence logged at info severity. -/
def statefileRemovalStep (hostHomeDir : String) (present : Bool) : List Event :=
  match osRemove (hostHomeDir ++ "/add-ons-state.xml") present with
  | Except.ok evs => evs
  | Except.error _ =>
      [Event.logInfo ("The addon state file " ++ hostHomeDir ++
        "/add-ons-state.xml was not created")]

/-- Shallow embedding of `ZapNone._handle_plugins`
(`zap_none.py` lines 250-272).  `get_update_command` is parent-class
code; its result is an input, with the empty list standing for the falsy
no-update case. -/
def handle_plugins (updateCommand : List String) (containerHomeDir : String)
    (updateReturncode : Int) : List Event :=
  if updateCommand = [] then
    [Event.logDebug "Skpping addon handling: no install, no update"]
  else
    [Event.runShell (updateCommand ++ ["-dir", containerHomeDir])] ++
    (if updateReturncode ≠ 0 then
      [Event.logWarning ("ZAP did not handle the addon requirements correctly, and exited with code "
        ++ toString updateReturncode)]
    else [])

/-- Exit-code classification of the main scan
(`zap_none.py` lines 135-142): `returncode in [0, 2]` means DONE,
everything else means ERROR. -/
def classifyZapExit (code : Int) : State :=
  if code = 0 ∨ code = 2 then State.DONE else State.ERROR

/-- Log event emitted by the exit-code classification branch. -/
def finalEvents (code : Int) : List Event :=
  if code = 0 ∨ code = 2 then
    [Event.logInfo ("The ZAP process finished with no errors, and exited with code "
      ++ toString code)]
  else
    [Event.logWarning ("The ZAP process did not finish correctly, and exited with code "
      ++ toString code)]

/-- Environment of `run`: the current state, the environment of the
plugin-status check, whether `add-ons-state.xml` exists at each of the two
deletion points, the addon update command and the exit codes of the addon
pass and of the main scan, and the main command line `self.zap_cli`. -/
structure RunEnv where
  state : State
  check : CheckEnv
  statefilePresentBefore : Bool
  statefilePresentAfter : Bool
  updateCommand : List String
  updateReturncode : Int
  zap_cli : List String
  mainReturncode : Int
deriving DecidableEq, Repr

/-- Event trace of a `run` invocation that passed the READY guard
(`zap_none.py` lines 103-142, in source order). -/
def runTrace (env : RunEnv) : List Event :=
  [Event.logInfo "Running up the ZAP scanner on the host"]
  ++ check_plugin_status env.check
  ++ statefileRemovalStep env.check.hostHomeDir env.statefilePresentBefore
  ++ handle_plugins env.updateCommand env.check.containerHomeDir env.updateReturncode
  ++ statefileRemovalStep env.check.hostHomeDir env.statefilePresentAfter
  ++ [Event.logInfo "Running ZAP with the following command",
      Event.runShell env.zap_cli]
  ++ finalEvents env.mainReturncode

/-- Shallow embedding of `ZapNone.run` (`zap_none.py` lines 99-142).
When the state is not READY a RuntimeError is raised after the initial
info log; otherwise the full trace is produced and the final state is the
exit-code classification. -/
def run (env : RunEnv) : List Event × Except String State :=
  if env.state = State.READY then
    (runTrace env, Except.ok (classifyZapExit env.mainReturncode))
  else
    ([Event.logInfo "Running up the ZAP scanner on the host"],
     Except.error "[ZAP SCANNER]: ERROR, not ready to run")

/-- Shallow embedding of `ZapNone.postprocess` (`zap_none.py`
lines 144-151).  `super().postprocess()` (parent-class code, not under
verification) is abstracted as the state transformer `superPost` and
recorded as a `superPostprocess` event. -/
def postprocess (superPost : State → State) (st : State) : List Event × Except String State :=
  ([Event.logInfo "Running postprocess for the ZAP Host environment",
    Event.superPostprocess],
   Except.ok (if superPost st = State.ERROR then superPost st else State.PROCESSED))

/-- Shallow embedding of `ZapNone.cleanup` (`zap_none.py` lines 153-162).
`super().cleanup()` is abstracted as the state transformer `superClean`. -/
def cleanup (superClean : State → State) (st : State) : List Event × Except String State :=
  if st = State.PROCESSED then
    ([Event.logInfo "Running cleanup for the ZAP Host environment", Event.superCleanup],
     Except.ok (if superClean st = State.ERROR then superClean st else State.CLEANEDUP))
  else
    ([Event.logInfo "Running cleanup for the ZAP Host environment"],
     Except.error "No cleanning up as ZAP did not processed results.")

/-- Directory of the zap scanner module (`MODULE_DIR`, imported from the
parent module which is not under verification; the concrete value is
immaterial to every claim). -/
def MODULE_DIR : String := "scanners/zap"

/-- Environment of `setup`: current state, whether active-scan mode is
configured (`my_conf("activeScan", default=False) is not False`), the
configured policy name, the policies directories (parent-class
properties), and whether the HOME directory is writable
(`_create_home_if_needed` probe). -/
structure SetupEnv where
  state : State
  activeScan : Bool
  policy : String
  hostPoliciesDir : String
  containerPoliciesDir : String
  homeWritable : Bool
deriving DecidableEq, Repr

/-- Shallow embedding of `ZapNone._create_home_if_needed`
(`zap_none.py` lines 316-325): when HOME is not writable it is redirected
to a fresh temporary directory. -/
def create_home_if_needed (homeWritable : Bool) : List Event :=
  if homeWritable then [] else [Event.setHomeEnv]

/-- Shallow embedding of `ZapNone.setup` (`zap_none.py` lines 70-97).
`super().setup()` and the other delegated sub-steps are abstracted as the
state transformer `superSet`; the policy placement (lines 85-91) is
recorded as events and touches no state. -/
def setup (superSet : State → State) (env : SetupEnv) : List Event × Except String State :=
  if env.state = State.UNCONFIGURED then
    ([Event.superSetup]
      ++ (if env.activeScan then
            [Event.mkdirEvt env.hostPoliciesDir,
             Event.includeFile (MODULE_DIR ++ "/policies/" ++ env.policy ++ ".policy")
               (env.containerPoliciesDir ++ "/" ++ env.policy ++ ".policy")]
          else [])
      ++ create_home_if_needed env.homeWritable,
     Except.ok (if superSet env.state = State.ERROR then superSet env.state else State.READY))
  else
    ([], Except.error ("ZAP setup encounter an unexpected state: " ++ stateName env.state))

/-- Environment of `_setup_ajax_spider`: the feature flag
(`my_conf("spiderAjax", default=False) is False` negated), the platform
name, the outcome of the `/dev/shm` probe and of the cgroup pids probe. -/
structure AjaxEnv where
  spiderAjax : Bool
  system : String
  shmPresent : Bool
  shmTotal : Nat
  pidsMaxPresent : Bool
  pidsMaxLine : String
deriving DecidableEq, Repr

/-- The `/dev/shm` shared-memory adequacy check
(`zap_none.py` lines 178-189): probe total size, warn when at or below
1 GiB; a missing `/dev/shm` is itself a warning. -/
def shm_check (present : Bool) (shm : Nat) : List Event :=
  Event.readShm ::
  (if present then
    Event.logDebug ("Shared mem size: " ++ toString shm ++ " bytes") ::
    (if shm ≤ 1024 * 1024 * 1024 then
      [Event.logWarning ("Insufficient shared memory to run an Ajax Spider correctly ("
        ++ toString shm ++
        " bytes). Make sure that /dev/shm/ is at least 1GB in size [ideally at least 2GB]")]
    else [])
  else
    [Event.logWarning "/dev/shm not present. Unable to calcuate shared memory size"])

/-- The cgroup v2 pid-limit check (`zap_none.py` lines 191-206).
Python `int(pid_val)` is modelled by `String.toInt?`, with `none`
standing for the ValueError branch. -/
def pids_check (present : Bool) (line : String) : List Event :=
  Event.readPids ::
  (if present then
    (if line = "max" then
      [Event.logDebug ("cgroup v2 has a sufficient pid limit: " ++ line)]
    else
      match line.toInt? with
      | some n =>
          if n > 10000 then
            [Event.logDebug ("cgroup v2 has a sufficient pid limit: " ++ line)]
          else
            [Event.logWarning ("Number of threads may be too low for SpiderAjax: cgroupv2 pids.max="
              ++ line)]
      | none => [Event.logWarning "Unable to parse cgroupv2 pids.max"])
  else
    [Event.logDebug "No cgroupv2 pids.max: assume root cgroup"])

/-- Shallow embedding of `ZapNone._setup_ajax_spider`
(`zap_none.py` lines 169-209).  Returns the (unchanged) scanner state and
the event trace; when the feature flag is unset the method returns
immediately with no effect at all; the Linux-only checks run before the
unconditional delegation to the parent (`superAjaxSetup` event). -/
def setup_ajax_spider (env : AjaxEnv) (st : State) : State × List Event :=
  if env.spiderAjax = false then
    (st, [])
  else
    (st,
     (if env.system = "Linux" then
        shm_check env.shmPresent env.shmTotal ++ pids_check env.pidsMaxPresent env.pidsMaxLine
      else [])
     ++ [Event.superAjaxSetup])

/-- Concrete check environment used by witness instantiations. -/
def sampleCheckEnv : CheckEnv :=
  { executable := "zap.sh"
    standardOptions := ["-config", "api.addrs.addr.name=.*"]
    containerHomeDir := "/tmp/rapidast/zaphomedir"
    hostHomeDir := "/tmp/rapidast/zaphomedir"
    verifReturncode := 0
    verifStderr := ""
    recoveryReturncode := 0 }

/-- Concrete run environment in READY state used by witness instantiations. -/
def sampleRunEnv : RunEnv :=
  { state := State.READY
    check := sampleCheckEnv
    statefilePresentBefore := true
    statefilePresentAfter := false
    updateCommand := []
    updateReturncode := 0
    zap_cli := ["zap.sh", "-dir", "/tmp/rapidast/zaphomedir", "-cmd", "-autorun", "af.yaml"]
    mainReturncode := 5 }

/-- Concrete run environment that never went through setup. -/
def unconfiguredRunEnv : RunEnv :=
  { sampleRunEnv with state := State.UNCONFIGURED }

/-- Concrete check environment on which the missing-mandatory-addon marker
sits at byte offset 0 of stderr while the verification run failed. -/
def markerAtZeroEnv : CheckEnv :=
  { sampleCheckEnv with
    verifReturncode := 1
    verifStderr := "The mandatory add-on was not found: callhome" }

/-- The same stderr shifted right by two bytes, marker at offset 2. -/
def markerShiftedEnv : CheckEnv :=
  { markerAtZeroEnv with
    verifStderr := "x:The mandatory add-on was not found: callhome" }

/-- Concrete check environment whose recovery re-run fails with exit code 1. -/
def failedRecoveryEnv : CheckEnv :=
  { markerShiftedEnv with recoveryReturncode := 1 }

/-- Concrete run environment around `failedRecoveryEnv`. -/
def failedRecoveryRunEnv : RunEnv :=
  { sampleRunEnv with check := failedRecoveryEnv, mainReturncode := 1 }

/-- Concrete ajax environment: Linux host, feature flag set, shared
memory exactly at the 1 GiB boundary. -/
def boundaryAjaxEnv : AjaxEnv :=
  { spiderAjax := true
    system := "Linux"
    shmPresent := true
    shmTotal := 1024 * 1024 * 1024
    pidsMaxPresent := false
    pidsMaxLine := "" }

/-- Concrete ajax environment with the feature flag unset on a small-memory
Linux host. -/
def flagUnsetAjaxEnv : AjaxEnv :=
  { boundaryAjaxEnv with spiderAjax := false, shmTotal := 64 * 1024 * 1024 }

/-- Concrete setup environment used by witness instantiations. -/
def sampleSetupEnv : SetupEnv :=
  { state := State.UNCONFIGURED
    activeScan := false
    policy := "API-scan-minimal"
    hostPoliciesDir := "/tmp/rapidast/zaphomedir/policies"
    containerPoliciesDir := "/tmp/rapidast/zaphomedir/policies"
    homeWritable := true }

/-- Claim C2: for every integer exit code of the main scan subprocess,
`run` ends in state DONE if and only if the code is 0 or 2, and ends in
state ERROR for every other integer. -/
theorem claim_C2 (env : RunEnv) (h : env.state = State.READY) :
    ((run env).2 = Except.ok State.DONE ↔ env.mainReturncode = 0 ∨ env.mainReturncode = 2) ∧
    (run env).2 = Except.ok (classifyZapExit env.mainReturncode) ∧
    (¬(env.mainReturncode = 0 ∨ env.mainReturncode = 2) →
      (run env).2 = Except.ok State.ERROR) := by
  by_cases hc : env.mainReturncode = 0 ∨ env.mainReturncode = 2 <;>
    simp [run, h, classifyZapExit, hc]

/-- Witness for claim C2 at a concrete READY environment whose main scan
exits with code 5: the final state is ERROR. -/
theorem claim_C2_witness :
    sampleRunEnv.state = State.READY ∧
    (((run sampleRunEnv).2 = Except.ok State.DONE ↔
        sampleRunEnv.mainReturncode = 0 ∨ sampleRunEnv.mainReturncode = 2) ∧
     (run sampleRunEnv).2 = Except.ok (classifyZapExit sampleRunEnv.mainReturncode) ∧
     (¬(sampleRunEnv.mainReturncode = 0 ∨ sampleRunEnv.mainReturncode = 2) →
       (run sampleRunEnv).2 = Except.ok State.ERROR)) :=
  ⟨rfl, claim_C2 sampleRunEnv rfl⟩

/-- Claim C3: for every environment whose state is not READY (in
particular UNCONFIGURED, before `setup`), `run` raises the sequencing
error and its trace holds no subprocess execution, no download, and no
plugin handling: it is exactly the single opening info log. -/
theorem claim_C3 (env : RunEnv) (h : env.state ≠ State.READY) :
    run env = ([Event.logInfo "Running up the ZAP scanner on the host"],
               Except.error "[ZAP SCANNER]: ERROR, not ready to run") ∧
    (run env).1.filter isProcessEvent = [] := by
  constructor
  · simp [run, h]
  · simp [run, h, isProcessEvent]

/-- Witness for claim C3 at a concrete scanner on which `setup` was never
called. -/
theorem claim_C3_witness :
    unconfiguredRunEnv.state ≠ State.READY ∧
    (run unconfiguredRunEnv = ([Event.logInfo "Running up the ZAP scanner on the host"],
        Except.error "[ZAP SCANNER]: ERROR, not ready to run") ∧
     (run unconfiguredRunEnv).1.filter isProcessEvent = []) :=
  ⟨by decide, claim_C3 unconfiguredRunEnv (by decide)⟩

/-- Claim C4: for every parent-class behavior and every state other than
PROCESSED, `cleanup` fails with the sequencing error and does not advance
the state (no new state is produced). -/
theorem claim_C4 (superClean : State → State) (st : State) (h : st ≠ State.PROCESSED) :
    cleanup superClean st =
      ([Event.logInfo "Running cleanup for the ZAP Host environment"],
       Except.error "No cleanning up as ZAP did not processed results.") := by
  simp [cleanup, h]

/-- Witness for claim C4: cleanup called in state DONE, before
postprocess ran. -/
theorem claim_C4_witness :
    State.DONE ≠ State.PROCESSED ∧
    cleanup (fun s => s) State.DONE =
      ([Event.logInfo "Running cleanup for the ZAP Host environment"],
       Except.error "No cleanning up as ZAP did not processed results.") :=
  ⟨by decide, claim_C4 (fun s => s) State.DONE (by decide)⟩

/-- Claim C5: `setup` fails with the out-of-sequence error for every
state other than UNCONFIGURED; when the state is UNCONFIGURED it returns
READY unless the delegated sub-steps left the state at ERROR, in which
case ERROR is kept. -/
theorem claim_C5 (superSet : State → State) (env : SetupEnv) :
    (env.state ≠ State.UNCONFIGURED →
      (setup superSet env).2 =
        Except.error ("ZAP setup encounter an unexpected state: " ++ stateName env.state)) ∧
    (env.state = State.UNCONFIGURED →
      (setup superSet env).2 =
        Except.ok (if superSet State.UNCONFIGURED = State.ERROR then State.ERROR
                   else State.READY)) := by
  constructor
  · intro h
    simp [setup, h]
  · intro h
    by_cases he : superSet State.UNCONFIGURED = State.ERROR <;>
      simp [setup, h, he]

/-- Witness for claim C5 at a concrete environment in state UNCONFIGURED
with an identity parent step: the state advances to READY. -/
theorem claim_C5_witness :
    ((sampleSetupEnv.state ≠ State.UNCONFIGURED →
       (setup (fun s => s) sampleSetupEnv).2 =
         Except.error ("ZAP setup encounter an unexpected state: " ++ stateName sampleSetupEnv.state)) ∧
     (sampleSetupEnv.state = State.UNCONFIGURED →
       (setup (fun s => s) sampleSetupEnv).2 =
         Except.ok (if (fun s => s) State.UNCONFIGURED = State.ERROR then State.ERROR
                    else State.READY))) ∧
    (setup (fun s => s) sampleSetupEnv).2 = Except.ok State.READY :=
  ⟨claim_C5 (fun s => s) sampleSetupEnv,
   ((claim_C5 (fun s => s) sampleSetupEnv).2 rfl).trans (by simp)⟩

/-- Claim C10: `postprocess` enforces no state precondition: for every
parent behavior and every starting state (including UNCONFIGURED) it
never raises, always records the delegation to the parent, and produces
PROCESSED exactly when the state after delegation is not ERROR, keeping
ERROR otherwise. -/
theorem claim_C10 (superPost : State → State) (st : State) :
    (postprocess superPost st).2 =
      Except.ok (if superPost st = State.ERROR then superPost st else State.PROCESSED) ∧
    Event.superPostprocess ∈ (postprocess superPost st).1 ∧
    ((postprocess superPost st).2 = Except.ok State.PROCESSED ↔ superPost st ≠ State.ERROR) := by
  refine ⟨rfl, by simp [postprocess], ?_⟩
  by_cases he : superPost st = State.ERROR <;> simp [postprocess, he]

/-- Witness for claim C10 at the UNCONFIGURED state with an identity
parent step: postprocess succeeds and yields PROCESSED. -/
theorem claim_C10_witness :
    ((postprocess (fun s => s) State.UNCONFIGURED).2 =
      Except.ok (if (fun s : State => s) State.UNCONFIGURED = State.ERROR
                 then (fun s : State => s) State.UNCONFIGURED else State.PROCESSED) ∧
     Event.superPostprocess ∈ (postprocess (fun s => s) State.UNCONFIGURED).1 ∧
     ((postprocess (fun s => s) State.UNCONFIGURED).2 = Except.ok State.PROCESSED ↔
       (fun s : State => s) State.UNCONFIGURED ≠ State.ERROR)) :=
  claim_C10 (fun s => s) State.UNCONFIGURED

/-- Claim C1, evaluation at the failing input: the verification run exits
with code 1 and its stderr is exactly the missing-mandatory-addon marker
followed by an addon name, so the marker occurs at byte offset 0.  The
guard on line 289 is `stderr.find(marker) > 0`, which is false at offset
0, so the code performs zero downloads (and no install-all command)
although the marker is present; shifting the marker to offset 2 makes the
same code perform the two downloads and the one install-all command. -/
theorem claim_C1_code_bug :
    bytesFind markerAtZeroEnv.verifStderr mandatoryAddonMarker = 0 ∧
    markerAtZeroEnv.verifReturncode ≠ 0 ∧
    ((check_plugin_status markerAtZeroEnv).filter isDownload).length = 0 ∧
    bytesFind markerShiftedEnv.verifStderr mandatoryAddonMarker = 2 ∧
    ((check_plugin_status markerShiftedEnv).filter isDownload).length = 2 ∧
    ((check_plugin_status markerShiftedEnv).filter
        (fun e => e = Event.runCmd (installAllCommand markerShiftedEnv))).length = 1 := by
  refine ⟨by decide, by decide, ?_, by decide, ?_, ?_⟩ <;> decide

/-- Claim C6, part 1: the underlying removal primitive raises when the
file is absent, but the deletion step of `run` catches it and reduces to
a single low-severity info log, deleting nothing and changing nothing. -/
theorem claim_C6 (d : String) :
    osRemove (d ++ "/add-ons-state.xml") false = Except.error "FileNotFoundError" ∧
    statefileRemovalStep d false =
      [Event.logInfo ("The addon state file " ++ d ++ "/add-ons-state.xml was not created")] ∧
    (statefileRemovalStep d false).filter isRemoveFile = [] ∧
    (statefileRemovalStep d false).filter isWarning = [] ∧
    (∀ env : RunEnv, env.state = State.READY →
      (∃ pre post,
        (run env).1 =
          pre
          ++ statefileRemovalStep env.check.hostHomeDir env.statefilePresentBefore
          ++ handle_plugins env.updateCommand env.check.containerHomeDir env.updateReturncode
          ++ statefileRemovalStep env.check.hostHomeDir env.statefilePresentAfter
          ++ post) ∧
      (run env).2 = Except.ok (classifyZapExit env.mainReturncode)) := by
  refine ⟨by simp [osRemove], by simp [statefileRemovalStep, osRemove],
    by simp [statefileRemovalStep, osRemove, isRemoveFile],
    by simp [statefileRemovalStep, osRemove, isWarning], ?_⟩
  intro env h
  constructor
  · refine ⟨[Event.logInfo "Running up the ZAP scanner on the host"]
      ++ check_plugin_status env.check,
      [Event.logInfo "Running ZAP with the following command",
       Event.runShell env.zap_cli] ++ finalEvents env.mainReturncode, ?_⟩
    simp [run, h, runTrace]
  · simp [run, h]

/-- Witness for claim C6 at a concrete home directory and a concrete
READY environment in which the state file is absent at the second
deletion point. -/
theorem claim_C6_witness :
    (osRemove ("/tmp/rapidast/zaphomedir" ++ "/add-ons-state.xml") false =
        Except.error "FileNotFoundError" ∧
     statefileRemovalStep "/tmp/rapidast/zaphomedir" false =
       [Event.logInfo ("The addon state file " ++ "/tmp/rapidast/zaphomedir" ++
         "/add-ons-state.xml was not created")] ∧
     (statefileRemovalStep "/tmp/rapidast/zaphomedir" false).filter isRemoveFile = [] ∧
     (statefileRemovalStep "/tmp/rapidast/zaphomedir" false).filter isWarning = [] ∧
     (∀ env : RunEnv, env.state = State.READY →
       (∃ pre post,
         (run env).1 =
           pre
           ++ statefileRemovalStep env.check.hostHomeDir env.statefilePresentBefore
           ++ handle_plugins env.updateCommand env.check.containerHomeDir env.updateReturncode
           ++ statefileRemovalStep env.check.hostHomeDir env.statefilePresentAfter
           ++ post) ∧
       (run env).2 = Except.ok (classifyZapExit env.mainReturncode))) ∧
    sampleRunEnv.state = State.READY :=
  ⟨claim_C6 "/tmp/rapidast/zaphomedir", rfl⟩

/-- Claim C8: when the spiderAjax feature flag is unset, the resource
adequacy check is a no-op for every platform and every shared-memory
size: the state is unchanged and the trace is empty, so no warning is
emitted and no host probe is performed. -/
theorem claim_C8 (env : AjaxEnv) (st : State) (h : env.spiderAjax = false) :
    setup_ajax_spider env st = (st, []) := by
  simp [setup_ajax_spider, h]

/-- Witness for claim C8 on a Linux host with only 64 MiB of shared
memory but the feature flag unset. -/
theorem claim_C8_witness :
    flagUnsetAjaxEnv.spiderAjax = false ∧
    setup_ajax_spider flagUnsetAjaxEnv State.READY = (State.READY, []) :=
  ⟨rfl, claim_C8 flagUnsetAjaxEnv State.READY rfl⟩

/-- Claim C9: the ajax resource check never alters the scanner state for
any input, and on a Linux host with the feature flag set, `/dev/shm`
present and its total size at or below 1 GiB (boundary included), the
shared-memory check emits exactly one adequacy warning. -/
theorem claim_C9 (env : AjaxEnv) (st : State) :
    (setup_ajax_spider env st).1 = st ∧
    (env.spiderAjax = true → env.system = "Linux" → env.shmPresent = true →
      env.shmTotal ≤ 1024 * 1024 * 1024 →
        (setup_ajax_spider env st).2 =
          shm_check env.shmPresent env.shmTotal
          ++ pids_check env.pidsMaxPresent env.pidsMaxLine
          ++ [Event.superAjaxSetup] ∧
        ((shm_check env.shmPresent env.shmTotal).filter isWarning).length = 1) := by
  constructor
  · by_cases h : env.spiderAjax = false <;> simp [setup_ajax_spider, h]
  · intro h1 h2 h3 h4
    constructor
    · simp [setup_ajax_spider, h1, h2]
    · simp [shm_check, h3, h4, isWarning]

/-- Witness for claim C9 at the exact 1 GiB boundary on a Linux host with
the feature flag set. -/
theorem claim_C9_witness :
    ((setup_ajax_spider boundaryAjaxEnv State.READY).1 = State.READY ∧
     (boundaryAjaxEnv.spiderAjax = true → boundaryAjaxEnv.system = "Linux" →
      boundaryAjaxEnv.shmPresent = true →
      boundaryAjaxEnv.shmTotal ≤ 1024 * 1024 * 1024 →
        (setup_ajax_spider boundaryAjaxEnv State.READY).2 =
          shm_check boundaryAjaxEnv.shmPresent boundaryAjaxEnv.shmTotal
          ++ pids_check boundaryAjaxEnv.pidsMaxPresent boundaryAjaxEnv.pidsMaxLine
          ++ [Event.superAjaxSetup] ∧
        ((shm_check boundaryAjaxEnv.shmPresent boundaryAjaxEnv.shmTotal).filter
            isWarning).length = 1)) ∧
    boundaryAjaxEnv.shmTotal ≤ 1024 * 1024 * 1024 :=
  ⟨claim_C9 boundaryAjaxEnv State.READY, by decide⟩

/-- The verification command and the recovery command always differ:
the recovery command carries one extra token. -/
theorem verif_ne_installAll (c : CheckEnv) : verifCommand c ≠ installAllCommand c := by
  intro hEq
  have hl := congrArg List.length hEq
  simp [verifCommand, installAllCommand] at hl

/-- The state-file deletion step never executes the recovery command. -/
theorem filter_installAll_statefile (d : String) (b : Bool) (c : List String) :
    (statefileRemovalStep d b).filter (fun e => e = Event.runCmd c) = [] := by
  cases b <;> simp [statefileRemovalStep, osRemove]

/-- The addon update pass never executes the recovery command directly
(its subprocess goes through the shell wrapper). -/
theorem filter_installAll_handle (u : List String) (d : String) (r : Int) (c : List String) :
    (handle_plugins u d r).filter (fun e => e = Event.runCmd c) = [] := by
  by_cases hu : u = [] <;> by_cases hr : r = 0 <;> simp [handle_plugins, hu, hr]

/-- The exit-classification logging never executes the recovery command. -/
theorem filter_installAll_final (code : Int) (c : List String) :
    (finalEvents code).filter (fun e => e = Event.runCmd c) = [] := by
  by_cases h : code = 0 ∨ code = 2 <;> simp [finalEvents, h]

/-- Claim C7, counterexample: at a concrete failed verification run with
the marker in stderr and a recovery re-run that exits with code 1, the
recovery failure is not logged — the trace of `_check_plugin_status` is
identical to the trace obtained when the recovery exits 0 (nothing
observable depends on the recovery exit code), its last event is the
recovery subprocess itself (no event of any kind follows it), and it
contains no warning-severity event at all.  This refutes the claim
conjunct that the failure of the recovery attempt is logged. -/
theorem claim_C7_counterexample :
    failedRecoveryEnv.recoveryReturncode = 1 ∧
    check_plugin_status failedRecoveryEnv = check_plugin_status markerShiftedEnv ∧
    markerShiftedEnv.recoveryReturncode = 0 ∧
    (check_plugin_status failedRecoveryEnv).getLast? =
      some (Event.runCmd (installAllCommand failedRecoveryEnv)) ∧
    (check_plugin_status failedRecoveryEnv).filter isWarning = [] := by
  refine ⟨by decide, by decide, by decide, by decide, by decide⟩

/-- Claim C7 as amended: whenever a READY run detects the
missing-mandatory-addon signature, exactly one recovery attempt is made
(exactly one execution of the addon-install-all command appears in the
trace), execution still proceeds to the main scan attempt, and the
recovery result is ignored: the whole behavior of `run` is independent
of the recovery exit code, so a recovery failure is not logged. -/
theorem claim_C7_amended (env : RunEnv) (h : env.state = State.READY)
    (hv : ¬ env.check.verifReturncode = 0)
    (hm : bytesFind env.check.verifStderr mandatoryAddonMarker > 0) :
    ((run env).1.filter (fun e => e = Event.runCmd (installAllCommand env.check))).length = 1 ∧
    Event.runShell env.zap_cli ∈ (run env).1 ∧
    (∀ rc : Int, run { env with check := { env.check with recoveryReturncode := rc } } = run env) := by
  have hne := verif_ne_installAll env.check
  refine ⟨?_, ?_, fun rc => rfl⟩
  · simp [run, h, runTrace, List.filter_append, filter_installAll_statefile,
      filter_installAll_handle, filter_installAll_final,
      check_plugin_status, hv, hm, hne]
  · simp [run, h, runTrace, check_plugin_status, hv, hm]

/-- Witness for the amended claim C7 at a concrete READY environment
whose recovery re-run exits with code 1. -/
theorem claim_C7_witness :
    failedRecoveryRunEnv.state = State.READY ∧
    ¬ failedRecoveryRunEnv.check.verifReturncode = 0 ∧
    bytesFind failedRecoveryRunEnv.check.verifStderr mandatoryAddonMarker > 0 ∧
    (((run failedRecoveryRunEnv).1.filter
        (fun e => e = Event.runCmd (installAllCommand failedRecoveryRunEnv.check))).length = 1 ∧
     Event.runShell failedRecoveryRunEnv.zap_cli ∈ (run failedRecoveryRunEnv).1 ∧
     (∀ rc : Int, run { failedRecoveryRunEnv with
        check := { failedRecoveryRunEnv.check with recoveryReturncode := rc } } =
          run failedRecoveryRunEnv)) :=
  ⟨rfl, by decide, by decide,
   claim_C7_amended failedRecoveryRunEnv rfl (by decide) (by decide)⟩

end Rapidast
